import Mathlib

/-!
Shallow embedding of `src/web/python/transcribe_with_whisper.py`
(Meeting Memory Whisper transcription runner).

The script parses arguments, checks the input file exists, imports the
whisper dependency, loads the audio, guards duration, invokes the model,
aggregates per-segment quality metrics, applies the ordered rejection
rules, and emits exactly one JSON payload before exiting.

Real numbers of the script are embedded as rationals `ℚ`; a JSON field
that may be missing or malformed is embedded as `RawField`; effects of
external collaborators (file system, whisper import, audio loader, model)
are passed in as an explicit environment `Whisper`, and the single
emitted payload together with the process exit code is the function
result.
-/

namespace Transcribe

/-- A dynamically-typed JSON field of a segment dict: `missing` embeds
`dict.get` returning `None`, `invalid` a value `float(...)` raises on,
`num q` a value `float(...)` converts to the number `q`. -/
inductive RawField where
  | missing : RawField
  | invalid : RawField
  | num : ℚ → RawField
deriving DecidableEq, Repr

/-- Embeds `safe_float(value, fallback)`: `float(value)` if it converts,
otherwise the fallback. -/
def safe_float (value : RawField) (fallback : ℚ) : ℚ :=
  match value with
  | .num q => q
  | .missing => fallback
  | .invalid => fallback

/-- One decoded segment as the script reads it: the three fields it
fetches with `s.get(...)`, each possibly missing or malformed. -/
structure Segment where
  no_speech_prob : RawField
  avg_logprob : RawField
  compression_ratio : RawField
deriving DecidableEq, Repr

/-- The aggregated quality metrics dict. -/
structure QualityMetrics where
  avg_no_speech_prob : ℚ
  avg_logprob : ℚ
  avg_compression_ratio : ℚ
deriving DecidableEq, Repr

/-- Embeds `build_quality_metrics(segments)`: sentinel triple on the empty
sequence, otherwise the three per-field arithmetic means with
`safe_float` fallbacks 0.0 / -1.0 / 1.0. -/
def build_quality_metrics (segments : List Segment) : QualityMetrics :=
  if segments.isEmpty then
    { avg_no_speech_prob := 1
      avg_logprob := -10
      avg_compression_ratio := 10 }
  else
    let total : ℚ := segments.length
    { avg_no_speech_prob :=
        (segments.map (fun s => safe_float s.no_speech_prob 0)).sum / total
      avg_logprob :=
        (segments.map (fun s => safe_float s.avg_logprob (-1))).sum / total
      avg_compression_ratio :=
        (segments.map (fun s => safe_float s.compression_ratio 1)).sum / total }

/-- The constant `MAX_DURATION_SECONDS = 60 * 60`. -/
def MAX_DURATION_SECONDS : ℚ := 60 * 60

/-- The constant `whisper.audio.SAMPLE_RATE`, the fixed sample rate of the audio
loader (16000 samples per second). -/
def SAMPLE_RATE : ℚ := 16000

/-- The raw transcription result of the model as the script reads it:
`result.get("text") or ""` (embedded directly as the string, with
absent text as `""`) and `result.get("segments") or []`. -/
structure ModelResult where
  text : String
  segments : List Segment
deriving DecidableEq, Repr

/-- The emitted verdict: the one JSON object written to stdout.
`success` carries the §3 Success fields; `failure` carries
`error_code`, `message`, and the optional `details`, `quality`,
`duration_seconds` fields (absent = `none`). -/
inductive Verdict where
  | success (meeting_id : String) (model : String) (duration_seconds : ℚ)
      (processing_seconds : ℚ) (segment_count : ℕ) (transcript_text : String)
      (quality : QualityMetrics)
  | failure (error_code : String) (message : String) (details : Option String)
      (quality : Option QualityMetrics) (duration_seconds : Option ℚ)
deriving DecidableEq, Repr

/-- The error code of an emitted payload, `none` for success. -/
def Verdict.errorCode : Verdict → Option String
  | .success _ _ _ _ _ _ _ => none
  | .failure c _ _ _ _ => some c

/-- The user-facing `message` field of an emitted failure payload. -/
def Verdict.messageOf : Verdict → Option String
  | .success _ _ _ _ _ _ _ => none
  | .failure _ m _ _ _ => some m

/-- The `details` field of an emitted failure payload. -/
def Verdict.detailsOf : Verdict → Option String
  | .success _ _ _ _ _ _ _ => none
  | .failure _ _ d _ _ => d

/-- Whether the payload is a Success object (`"ok": true`). -/
def Verdict.isSuccess : Verdict → Bool
  | .success _ _ _ _ _ _ _ => true
  | .failure _ _ _ _ _ => false

/-- Everything `emit` produces for one run: the single payload written
to stdout, the process exit code passed to `sys.exit`, and (for the
model-invocation claims) whether `whisper.load_model` was reached. -/
structure RunResult where
  payload : Verdict
  exit_code : ℕ
  model_invoked : Bool
deriving DecidableEq, Repr

/-- Embeds `emit(payload)`: the script always calls `emit` with the default
`exit_code = 0`; the third component records whether the model had been
invoked when the emission happened. -/
def emit (payload : Verdict) (exit_code : ℕ) (model_invoked : Bool) : RunResult :=
  { payload := payload, exit_code := exit_code, model_invoked := model_invoked }

/-- Substring test on character lists (Python `sub in hay`). -/
def charsContain : List Char → List Char → Bool
  | [], needle => needle.isEmpty
  | c :: t, needle => needle.isPrefixOf (c :: t) || charsContain t needle

/-- Python `sub in hay` on strings. -/
def strContains (hay sub : String) : Bool :=
  charsContain hay.data sub.data

/-- Drops leading whitespace characters from a character sequence. -/
def dropLeadingWs : List Char → List Char
  | [] => []
  | c :: t => if c.isWhitespace then dropLeadingWs t else c :: t

/-- Python `text.strip()`: removes leading and trailing whitespace,
embedded structurally over the character sequence. -/
def pyStrip (s : String) : String :=
  String.mk ((dropLeadingWs ((dropLeadingWs s.data).reverse)).reverse)

/-- Python `message.lower()`, embedded as a per-character lowering of
the underlying character sequence. -/
def lowerString (message : String) : String :=
  String.mk (message.data.map Char.toLower)

/-- The classification of an unexpected exception message in the
`except` handler of `main`: the three fixed lowered substrings that
mark a missing audio-decoding dependency. -/
def isDependencyMessage (message : String) : Bool :=
  let lowered := lowerString message
  strContains lowered "ffmpeg" || strContains lowered "winerror 2" ||
    strContains lowered "system cannot find the file specified"

/-- Validated invocation configuration, after `argparse`:
`input_exists` embeds `os.path.isfile(os.path.abspath(args.input))`. -/
structure Args where
  input_exists : Bool
  model : String
  meeting_id : String
deriving DecidableEq, Repr

/-- The behavior of the external collaborators for one run:
whether `import whisper` succeeds (with exception text on failure),
what `whisper.load_audio` returns (sample count, or exception text),
what `whisper.load_model` + `model.transcribe` return (raw result, or
exception text), and the wall-clock `time.time() - started`. -/
structure Whisper where
  importResult : Except String Unit
  loadAudio : Except String ℕ
  modelRun : Except String ModelResult
  processing_seconds : ℚ
deriving Repr

/-- The `except Exception` handler at the bottom of `main`: substring
dispatch between `dependency_missing` and `transcription_failed`, with
the original text in `details`. -/
def classifyException (message : String) (model_invoked : Bool) : RunResult :=
  if isDependencyMessage message then
    emit (.failure "dependency_missing"
      "Whisper requires ffmpeg installed on the server."
      (some message) none none) 0 model_invoked
  else
    emit (.failure "transcription_failed"
      "Transcription failed unexpectedly."
      (some message) none none) 0 model_invoked

/-- Embeds `main()`: the whole pipeline after argument parsing, from the
admissibility check to the final emission. -/
def main (args : Args) (w : Whisper) : RunResult :=
  if !args.input_exists then
    emit (.failure "missing_file" "Audio file not found." none none none) 0 false
  else
    match w.importResult with
    | .error exc =>
        emit (.failure "dependency_missing"
          "Whisper dependencies are not installed. Install python requirements and ffmpeg first."
          (some exc) none none) 0 false
    | .ok _ =>
      match w.loadAudio with
      | .error exc => classifyException exc false
      | .ok sampleCount =>
        let duration_seconds : ℚ := (sampleCount : ℚ) / SAMPLE_RATE
        if duration_seconds > MAX_DURATION_SECONDS then
          emit (.failure "too_long" "Please split into 1 hour parts"
            none none (some duration_seconds)) 0 false
        else
          match w.modelRun with
          | .error exc => classifyException exc true
          | .ok result =>
            let raw_text := pyStrip result.text
            let segments := result.segments
            let quality := build_quality_metrics segments
            if raw_text.length < 8 ∨ quality.avg_no_speech_prob ≥ 0.78 then
              emit (.failure "unclear_audio" "Couldn\x27t hear clearly"
                none (some quality) none) 0 true
            else if quality.avg_compression_ratio > 2.4 ∧
                quality.avg_logprob < -0.9 ∧
                quality.avg_no_speech_prob > 0.45 then
              emit (.failure "background_noise" "Try quieter place"
                none (some quality) none) 0 true
            else
              emit (.success args.meeting_id args.model duration_seconds
                w.processing_seconds segments.length raw_text quality) 0 true

/-! ### Reduction helpers -/

/-- Reduction of `main` on a run that reaches the quality gate. -/
theorem main_eq_gate (args : Args) (w : Whisper) (sc : ℕ) (r : ModelResult)
    (h1 : args.input_exists = true) (h2 : w.importResult = .ok ())
    (h3 : w.loadAudio = .ok sc)
    (h4 : ¬((sc : ℚ) / SAMPLE_RATE > MAX_DURATION_SECONDS))
    (h5 : w.modelRun = .ok r) :
    main args w =
      if (pyStrip r.text).length < 8 ∨ (build_quality_metrics r.segments).avg_no_speech_prob ≥ 0.78 then
        emit (.failure "unclear_audio" "Couldn\x27t hear clearly" none
          (some (build_quality_metrics r.segments)) none) 0 true
      else if (build_quality_metrics r.segments).avg_compression_ratio > 2.4 ∧
          (build_quality_metrics r.segments).avg_logprob < -0.9 ∧
          (build_quality_metrics r.segments).avg_no_speech_prob > 0.45 then
        emit (.failure "background_noise" "Try quieter place" none
          (some (build_quality_metrics r.segments)) none) 0 true
      else
        emit (.success args.meeting_id args.model ((sc : ℚ) / SAMPLE_RATE)
          w.processing_seconds r.segments.length (pyStrip r.text)
          (build_quality_metrics r.segments)) 0 true := by
  simp only [main, h1, h2, h3, h5, Bool.not_true, Bool.false_eq_true, if_false]
  rw [if_neg h4]

/-- Reduction of `main` on a run where the model invocation raises. -/
theorem main_eq_classify (args : Args) (w : Whisper) (sc : ℕ) (m : String)
    (h1 : args.input_exists = true) (h2 : w.importResult = .ok ())
    (h3 : w.loadAudio = .ok sc)
    (h4 : ¬((sc : ℚ) / SAMPLE_RATE > MAX_DURATION_SECONDS))
    (h5 : w.modelRun = .error m) :
    main args w = classifyException m true := by
  simp only [main, h1, h2, h3, h5, Bool.not_true, Bool.false_eq_true, if_false]
  rw [if_neg h4]

/-! ### Claims -/

/-- C1: on every run that reaches the quality gate, the emitted payload has
error code `unclear_audio` iff the trimmed transcript has fewer than 8
characters or the aggregated `avg_no_speech_prob` is at least 0.78; and
whenever that condition holds the run emits exactly the `unclear_audio`
failure (so the later `background_noise` rule is never consulted). -/
theorem C1_unclear_audio_rule (args : Args) (w : Whisper) (sc : ℕ) (r : ModelResult)
    (h1 : args.input_exists = true) (h2 : w.importResult = .ok ())
    (h3 : w.loadAudio = .ok sc)
    (h4 : ¬((sc : ℚ) / SAMPLE_RATE > MAX_DURATION_SECONDS))
    (h5 : w.modelRun = .ok r) :
    ((main args w).payload.errorCode = some "unclear_audio" ↔
      ((pyStrip r.text).length < 8 ∨
        (build_quality_metrics r.segments).avg_no_speech_prob ≥ 0.78))
    ∧ (((pyStrip r.text).length < 8 ∨
        (build_quality_metrics r.segments).avg_no_speech_prob ≥ 0.78) →
      main args w = emit (.failure "unclear_audio" "Couldn\x27t hear clearly" none
        (some (build_quality_metrics r.segments)) none) 0 true) := by
  rw [main_eq_gate args w sc r h1 h2 h3 h4 h5]
  by_cases hg : (pyStrip r.text).length < 8 ∨
      (build_quality_metrics r.segments).avg_no_speech_prob ≥ 0.78
  · rw [if_pos hg]
    exact ⟨⟨fun _ => hg, fun _ => rfl⟩, fun _ => rfl⟩
  · rw [if_neg hg]
    refine ⟨⟨fun hcode => absurd hcode ?_, fun hfire => absurd hfire hg⟩,
      fun hfire => absurd hfire hg⟩
    split <;> simp [emit, Verdict.errorCode]

/-- C2: on every run that reaches the quality gate and passes the
`unclear_audio` rule, the emitted payload has error code
`background_noise` iff `avg_compression_ratio > 2.4`,
`avg_logprob < -0.9` and `avg_no_speech_prob > 0.45` all hold; if any
one fails, a Success verdict is emitted. -/
theorem C2_background_noise_rule (args : Args) (w : Whisper) (sc : ℕ) (r : ModelResult)
    (h1 : args.input_exists = true) (h2 : w.importResult = .ok ())
    (h3 : w.loadAudio = .ok sc)
    (h4 : ¬((sc : ℚ) / SAMPLE_RATE > MAX_DURATION_SECONDS))
    (h5 : w.modelRun = .ok r)
    (h6 : ¬((pyStrip r.text).length < 8 ∨
        (build_quality_metrics r.segments).avg_no_speech_prob ≥ 0.78)) :
    ((main args w).payload.errorCode = some "background_noise" ↔
      ((build_quality_metrics r.segments).avg_compression_ratio > 2.4 ∧
        (build_quality_metrics r.segments).avg_logprob < -0.9 ∧
        (build_quality_metrics r.segments).avg_no_speech_prob > 0.45))
    ∧ (¬((build_quality_metrics r.segments).avg_compression_ratio > 2.4 ∧
        (build_quality_metrics r.segments).avg_logprob < -0.9 ∧
        (build_quality_metrics r.segments).avg_no_speech_prob > 0.45) →
      (main args w).payload.isSuccess = true) := by
  rw [main_eq_gate args w sc r h1 h2 h3 h4 h5, if_neg h6]
  by_cases hbg : (build_quality_metrics r.segments).avg_compression_ratio > 2.4 ∧
      (build_quality_metrics r.segments).avg_logprob < -0.9 ∧
      (build_quality_metrics r.segments).avg_no_speech_prob > 0.45
  · rw [if_pos hbg]
    exact ⟨⟨fun _ => hbg, fun _ => rfl⟩, fun hn => absurd hbg hn⟩
  · rw [if_neg hbg]
    exact ⟨⟨fun hcode => absurd hcode (by simp [emit, Verdict.errorCode]),
      fun h => absurd h hbg⟩, fun _ => rfl⟩

/-- C4: on every run that reaches the quality gate with zero segments,
whatever the transcript text, the run emits the `unclear_audio` failure
whose quality payload is exactly the sentinel triple (1.0, -10.0, 10.0). -/
theorem C4_zero_segments_unclear (args : Args) (w : Whisper) (sc : ℕ) (r : ModelResult)
    (h1 : args.input_exists = true) (h2 : w.importResult = .ok ())
    (h3 : w.loadAudio = .ok sc)
    (h4 : ¬((sc : ℚ) / SAMPLE_RATE > MAX_DURATION_SECONDS))
    (h5 : w.modelRun = .ok r) (h6 : r.segments = []) :
    main args w = emit (.failure "unclear_audio" "Couldn\x27t hear clearly" none
      (some { avg_no_speech_prob := 1, avg_logprob := -10,
              avg_compression_ratio := 10 }) none) 0 true := by
  rw [main_eq_gate args w sc r h1 h2 h3 h4 h5]
  have hq : build_quality_metrics r.segments =
      { avg_no_speech_prob := 1, avg_logprob := -10, avg_compression_ratio := 10 } := by
    rw [h6]; rfl
  rw [hq]
  rw [if_pos (Or.inr (by norm_num))]


/-- C3: the metric aggregation returns, for a non-empty segment sequence,
the arithmetic means of the per-segment values after per-field fallback
substitution (`no_speech_prob` -> 0.0, `avg_logprob` -> -1.0,
`compression_ratio` -> 1.0), and for the empty sequence exactly the
sentinel triple (1.0, -10.0, 10.0). -/
theorem C3_metric_aggregation (segments : List Segment) :
    (segments ≠ [] → build_quality_metrics segments =
      { avg_no_speech_prob :=
          (segments.map (fun s => safe_float s.no_speech_prob 0)).sum / (segments.length : ℚ)
        avg_logprob :=
          (segments.map (fun s => safe_float s.avg_logprob (-1))).sum / (segments.length : ℚ)
        avg_compression_ratio :=
          (segments.map (fun s => safe_float s.compression_ratio 1)).sum / (segments.length : ℚ) })
    ∧ (segments = [] → build_quality_metrics segments =
      { avg_no_speech_prob := 1, avg_logprob := -10, avg_compression_ratio := 10 }) := by
  constructor
  · intro h
    rw [build_quality_metrics, if_neg (by simpa [List.isEmpty_iff] using h)]
  · intro h
    rw [h]; rfl

/-- C5: on every run that passes the admissibility and import stages,
the duration is the sample count divided by the fixed sample rate; a
duration above 3600 seconds emits the `too_long` failure carrying that
duration, with the model never invoked, while a duration of exactly
3600 is never rejected as `too_long`. -/
theorem C5_duration_guard (args : Args) (w : Whisper) (sc : ℕ)
    (h1 : args.input_exists = true) (h2 : w.importResult = .ok ())
    (h3 : w.loadAudio = .ok sc) :
    ((sc : ℚ) / SAMPLE_RATE > 3600 →
      main args w = emit (.failure "too_long" "Please split into 1 hour parts"
        none none (some ((sc : ℚ) / SAMPLE_RATE))) 0 false)
    ∧ ((sc : ℚ) / SAMPLE_RATE = 3600 →
      (main args w).payload.errorCode ≠ some "too_long") := by
  constructor
  · intro hgt
    have hgt' : (sc : ℚ) / SAMPLE_RATE > MAX_DURATION_SECONDS := by
      rw [MAX_DURATION_SECONDS]; norm_num; exact hgt
    simp only [main, h1, h2, h3, Bool.not_true, Bool.false_eq_true, if_false]
    rw [if_pos hgt']
  · intro heq
    have h4 : ¬((sc : ℚ) / SAMPLE_RATE > MAX_DURATION_SECONDS) := by
      rw [heq, MAX_DURATION_SECONDS]; norm_num
    cases hm : w.modelRun with
    | error m =>
        rw [main_eq_classify args w sc m h1 h2 h3 h4 hm]
        rw [classifyException]
        split <;> simp [emit, Verdict.errorCode]
    | ok r =>
        rw [main_eq_gate args w sc r h1 h2 h3 h4 hm]
        split
        · simp [emit, Verdict.errorCode]
        · split <;> simp [emit, Verdict.errorCode]

/-- C6 counterexample: with a missing input file the run emits a Failure
payload and still terminates with exit code 0, refuting the claim that
a Failure terminates with a non-zero exit code. -/
theorem C6_counterexample_exit_zero :
    (main { input_exists := false, model := "base", meeting_id := "m1" }
        { importResult := .ok (), loadAudio := .ok 0,
          modelRun := .error "x", processing_seconds := 0 }).payload.isSuccess = false
    ∧ (main { input_exists := false, model := "base", meeting_id := "m1" }
        { importResult := .ok (), loadAudio := .ok 0,
          modelRun := .error "x", processing_seconds := 0 }).exit_code = 0 :=
  ⟨rfl, rfl⟩

/-- Reduction of `main` when the input file is missing. -/
theorem main_missing_file (args : Args) (w : Whisper)
    (h1 : args.input_exists = false) :
    main args w = emit (.failure "missing_file" "Audio file not found."
      none none none) 0 false := by
  simp [main, h1]

/-- Reduction of `main` when the whisper import raises. -/
theorem main_import_error (args : Args) (w : Whisper) (e : String)
    (h1 : args.input_exists = true) (h2 : w.importResult = .error e) :
    main args w = emit (.failure "dependency_missing"
      "Whisper dependencies are not installed. Install python requirements and ffmpeg first."
      (some e) none none) 0 false := by
  simp [main, h1, h2]

/-- Reduction of `main` when the audio loader raises. -/
theorem main_load_error (args : Args) (w : Whisper) (e : String)
    (h1 : args.input_exists = true) (h2 : w.importResult = .ok ())
    (h3 : w.loadAudio = .error e) :
    main args w = classifyException e false := by
  simp [main, h1, h2, h3]

/-- Reduction of `main` when the duration guard fires. -/
theorem main_too_long (args : Args) (w : Whisper) (sc : ℕ)
    (h1 : args.input_exists = true) (h2 : w.importResult = .ok ())
    (h3 : w.loadAudio = .ok sc)
    (h4 : (sc : ℚ) / SAMPLE_RATE > MAX_DURATION_SECONDS) :
    main args w = emit (.failure "too_long" "Please split into 1 hour parts"
      none none (some ((sc : ℚ) / SAMPLE_RATE))) 0 false := by
  simp only [main, h1, h2, h3, Bool.not_true, Bool.false_eq_true, if_false]
  rw [if_pos h4]

/-- Both branches of the exception handler exit with code 0. -/
theorem classify_exit_code_zero (m : String) (b : Bool) :
    (classifyException m b).exit_code = 0 := by
  rw [classifyException]; split <;> rfl

/-- C6 amended: every invocation terminates with exit code 0, whether
the emitted payload is a Success or a Failure (the script always calls
`emit` with its default exit code). -/
theorem C6_exit_code_always_zero (args : Args) (w : Whisper) :
    (main args w).exit_code = 0 := by
  by_cases h1 : args.input_exists = true
  · cases h2 : w.importResult with
    | error e => rw [main_import_error args w e h1 h2]; rfl
    | ok u =>
      cases u
      cases h3 : w.loadAudio with
      | error e =>
        rw [main_load_error args w e h1 h2 h3]
        exact classify_exit_code_zero e false
      | ok sc =>
        by_cases h4 : (sc : ℚ) / SAMPLE_RATE > MAX_DURATION_SECONDS
        · rw [main_too_long args w sc h1 h2 h3 h4]; rfl
        · cases h5 : w.modelRun with
          | error m =>
            rw [main_eq_classify args w sc m h1 h2 h3 h4 h5]
            exact classify_exit_code_zero m true
          | ok r =>
            rw [main_eq_gate args w sc r h1 h2 h3 h4 h5]
            split
            · rfl
            · split <;> rfl
  · rw [main_missing_file args w (by simpa using h1)]; rfl

/-- C7: on every run where the model invocation raises, the emitted
payload has error code `dependency_missing` iff the failure message,
lowered, contains one of the fixed dependency substrings; otherwise it
is `transcription_failed`; exactly one of the two codes is assigned and
the original failure text is carried in the `details` field. -/
theorem C7_exception_classification (args : Args) (w : Whisper) (sc : ℕ) (m : String)
    (h1 : args.input_exists = true) (h2 : w.importResult = .ok ())
    (h3 : w.loadAudio = .ok sc)
    (h4 : ¬((sc : ℚ) / SAMPLE_RATE > MAX_DURATION_SECONDS))
    (h5 : w.modelRun = .error m) :
    ((main args w).payload.errorCode = some "dependency_missing" ↔
      isDependencyMessage m = true)
    ∧ ((main args w).payload.errorCode = some "dependency_missing" ∨
        (main args w).payload.errorCode = some "transcription_failed")
    ∧ ¬((main args w).payload.errorCode = some "dependency_missing" ∧
        (main args w).payload.errorCode = some "transcription_failed")
    ∧ (main args w).payload.detailsOf = some m := by
  rw [main_eq_classify args w sc m h1 h2 h3 h4 h5, classifyException]
  by_cases hd : isDependencyMessage m
  · rw [if_pos hd]
    refine ⟨⟨fun _ => hd, fun _ => rfl⟩, Or.inl rfl, ?_, rfl⟩
    rintro ⟨hc1, hc2⟩
    rw [hc1] at hc2
    simp at hc2
  · rw [if_neg hd]
    refine ⟨⟨fun hcode => absurd hcode (by simp [emit, Verdict.errorCode]),
      fun h => absurd h (by simpa using hd)⟩, Or.inr rfl, ?_, rfl⟩
    rintro ⟨hc1, hc2⟩
    rw [hc1] at hc2
    simp at hc2


/-- The fixed set of user-facing messages the script associates with
each error code (the `dependency_missing` code is produced at two call
sites with two distinct fixed messages). -/
def fixedMessages : String → List String
  | "missing_file" => ["Audio file not found."]
  | "dependency_missing" =>
      ["Whisper dependencies are not installed. Install python requirements and ffmpeg first.",
        "Whisper requires ffmpeg installed on the server."]
  | "too_long" => ["Please split into 1 hour parts"]
  | "unclear_audio" => ["Couldn\x27t hear clearly"]
  | "background_noise" => ["Try quieter place"]
  | "transcription_failed" => ["Transcription failed unexpectedly."]
  | _ => []

/-- C8 counterexample: two runs both emit Failures with error code
`dependency_missing` yet with two different `message` strings (the
import-failure site and the ffmpeg-classification site), refuting the
claim that the message is one fixed string per error code. -/
theorem C8_counterexample_two_messages :
    ((main { input_exists := true, model := "base", meeting_id := "m1" }
        { importResult := .error "No module named whisper", loadAudio := .ok 0,
          modelRun := .error "x", processing_seconds := 0 }).payload.errorCode
      = some "dependency_missing")
    ∧ ((main { input_exists := true, model := "base", meeting_id := "m1" }
        { importResult := .ok (), loadAudio := .ok 0,
          modelRun := .error "ffmpeg not found", processing_seconds := 0 }).payload.errorCode
      = some "dependency_missing")
    ∧ (main { input_exists := true, model := "base", meeting_id := "m1" }
        { importResult := .error "No module named whisper", loadAudio := .ok 0,
          modelRun := .error "x", processing_seconds := 0 }).payload.messageOf
      ≠ (main { input_exists := true, model := "base", meeting_id := "m1" }
        { importResult := .ok (), loadAudio := .ok 0,
          modelRun := .error "ffmpeg not found", processing_seconds := 0 }).payload.messageOf := by
  have e2 : main { input_exists := true, model := "base", meeting_id := "m1" }
      { importResult := .ok (), loadAudio := .ok 0,
        modelRun := .error "ffmpeg not found", processing_seconds := 0 } =
      classifyException "ffmpeg not found" true := by
    refine main_eq_classify _ _ 0 _ rfl rfl rfl ?_ rfl
    rw [SAMPLE_RATE, MAX_DURATION_SECONDS]; norm_num
  have e3 : isDependencyMessage "ffmpeg not found" = true := by decide
  rw [e2, classifyException, if_pos e3]
  exact ⟨rfl, rfl, by decide⟩

/-- C8 amended: every Failure the program can emit carries a `message`
drawn from the fixed finite per-code message set `fixedMessages` (one
fixed string per code, except `dependency_missing` which has one of two
fixed strings depending on whether the dependency import itself failed
or the audio-decoding tool was missing); the message is never the raw
failure text, which is carried only in `details`. -/
theorem C8_message_fixed_per_code (args : Args) (w : Whisper)
    (c msg : String) (det : Option String) (q : Option QualityMetrics) (dur : Option ℚ)
    (h : (main args w).payload = .failure c msg det q dur) :
    msg ∈ fixedMessages c := by
  by_cases h1 : args.input_exists = true
  · cases h2 : w.importResult with
    | error e =>
      rw [main_import_error args w e h1 h2] at h
      simp only [emit, Verdict.failure.injEq] at h
      obtain ⟨hc, hm, -, -, -⟩ := h
      subst hc; subst hm; decide
    | ok u =>
      cases u
      cases h3 : w.loadAudio with
      | error e =>
        rw [main_load_error args w e h1 h2 h3, classifyException] at h
        split at h <;>
        · simp only [emit, Verdict.failure.injEq] at h
          obtain ⟨hc, hm, -, -, -⟩ := h
          subst hc; subst hm; decide
      | ok sc =>
        by_cases h4 : (sc : ℚ) / SAMPLE_RATE > MAX_DURATION_SECONDS
        · rw [main_too_long args w sc h1 h2 h3 h4] at h
          simp only [emit, Verdict.failure.injEq] at h
          obtain ⟨hc, hm, -, -, -⟩ := h
          subst hc; subst hm; decide
        · cases h5 : w.modelRun with
          | error m =>
            rw [main_eq_classify args w sc m h1 h2 h3 h4 h5, classifyException] at h
            split at h <;>
            · simp only [emit, Verdict.failure.injEq] at h
              obtain ⟨hc, hm, -, -, -⟩ := h
              subst hc; subst hm; decide
          | ok r =>
            rw [main_eq_gate args w sc r h1 h2 h3 h4 h5] at h
            split at h
            · simp only [emit, Verdict.failure.injEq] at h
              obtain ⟨hc, hm, -, -, -⟩ := h
              subst hc; subst hm; decide
            · split at h
              · simp only [emit, Verdict.failure.injEq] at h
                obtain ⟨hc, hm, -, -, -⟩ := h
                subst hc; subst hm; decide
              · simp only [emit] at h
                exact Verdict.noConfusion h
  · rw [main_missing_file args w (by simpa using h1)] at h
    simp only [emit, Verdict.failure.injEq] at h
    obtain ⟨hc, hm, -, -, -⟩ := h
    subst hc; subst hm; decide


/-- Unfolding of `build_quality_metrics` on a non-empty sequence. -/
theorem build_quality_metrics_ne_nil (segments : List Segment) (h : segments ≠ []) :
    build_quality_metrics segments =
      { avg_no_speech_prob :=
          (segments.map (fun s => safe_float s.no_speech_prob 0)).sum / (segments.length : ℚ)
        avg_logprob :=
          (segments.map (fun s => safe_float s.avg_logprob (-1))).sum / (segments.length : ℚ)
        avg_compression_ratio :=
          (segments.map (fun s => safe_float s.compression_ratio 1)).sum / (segments.length : ℚ) } := by
  rw [build_quality_metrics, if_neg (by simpa [List.isEmpty_iff] using h)]

/-- The arithmetic mean of a non-empty list of rationals lies between
any lower bound and any upper bound of its elements. -/
theorem mean_bounds (l : List ℚ) (hl : l ≠ []) (mn mx : ℚ)
    (hmn : ∀ x ∈ l, mn ≤ x) (hmx : ∀ x ∈ l, x ≤ mx) :
    mn ≤ l.sum / (l.length : ℚ) ∧ l.sum / (l.length : ℚ) ≤ mx := by
  have hpos : (0 : ℚ) < (l.length : ℚ) := by
    exact_mod_cast List.length_pos.mpr hl
  constructor
  · rw [le_div_iff₀ hpos]
    have hle := List.card_nsmul_le_sum l mn hmn
    rw [nsmul_eq_mul] at hle
    linarith
  · rw [div_le_iff₀ hpos]
    have hle := List.sum_le_card_nsmul l mx hmx
    rw [nsmul_eq_mul] at hle
    linarith

/-- The arithmetic mean of a non-empty list of rationals lies between
its minimum and its maximum. -/
theorem mean_between_min_max (l : List ℚ) (hl : l ≠ []) (mn mx : ℚ)
    (hmn : l.minimum = (mn : WithTop ℚ)) (hmx : l.maximum = (mx : WithBot ℚ)) :
    mn ≤ l.sum / (l.length : ℚ) ∧ l.sum / (l.length : ℚ) ≤ mx :=
  mean_bounds l hl mn mx (List.minimum_eq_coe_iff.mp hmn).2
    (List.maximum_eq_coe_iff.mp hmx).2

/-- C9: for a non-empty segment sequence each aggregated metric lies
between the minimum and the maximum of the corresponding per-segment
values after fallback substitution; on the empty sequence the metrics
are exactly (1.0, -10.0, 10.0). -/
theorem C9_metrics_convex_hull (segments : List Segment) :
    (segments = [] → build_quality_metrics segments =
      { avg_no_speech_prob := 1, avg_logprob := -10, avg_compression_ratio := 10 })
    ∧ (segments ≠ [] →
      (∀ mn mx : ℚ,
        (segments.map fun s => safe_float s.no_speech_prob 0).minimum = (mn : WithTop ℚ) →
        (segments.map fun s => safe_float s.no_speech_prob 0).maximum = (mx : WithBot ℚ) →
        mn ≤ (build_quality_metrics segments).avg_no_speech_prob ∧
          (build_quality_metrics segments).avg_no_speech_prob ≤ mx)
      ∧ (∀ mn mx : ℚ,
        (segments.map fun s => safe_float s.avg_logprob (-1)).minimum = (mn : WithTop ℚ) →
        (segments.map fun s => safe_float s.avg_logprob (-1)).maximum = (mx : WithBot ℚ) →
        mn ≤ (build_quality_metrics segments).avg_logprob ∧
          (build_quality_metrics segments).avg_logprob ≤ mx)
      ∧ (∀ mn mx : ℚ,
        (segments.map fun s => safe_float s.compression_ratio 1).minimum = (mn : WithTop ℚ) →
        (segments.map fun s => safe_float s.compression_ratio 1).maximum = (mx : WithBot ℚ) →
        mn ≤ (build_quality_metrics segments).avg_compression_ratio ∧
          (build_quality_metrics segments).avg_compression_ratio ≤ mx)) := by
  constructor
  · intro h; rw [h]; rfl
  · intro h
    rw [build_quality_metrics_ne_nil segments h]
    refine ⟨fun mn mx hmn hmx => ?_, fun mn mx hmn hmx => ?_, fun mn mx hmn hmx => ?_⟩
    · have hl : segments.map (fun s => safe_float s.no_speech_prob 0) ≠ [] := by
        simpa using h
      have hres := mean_between_min_max _ hl mn mx hmn hmx
      simpa [List.length_map] using hres
    · have hl : segments.map (fun s => safe_float s.avg_logprob (-1)) ≠ [] := by
        simpa using h
      have hres := mean_between_min_max _ hl mn mx hmn hmx
      simpa [List.length_map] using hres
    · have hl : segments.map (fun s => safe_float s.compression_ratio 1) ≠ [] := by
        simpa using h
      have hres := mean_between_min_max _ hl mn mx hmn hmx
      simpa [List.length_map] using hres

/-- C10: the optional fields of each failure payload are fixed by its
error code: `unclear_audio` and `background_noise` carry quality but no
duration and no details, `too_long` carries the duration only,
`missing_file` none of the three, and only `dependency_missing` and
`transcription_failed` carry details (with no quality and no duration). -/
theorem C10_failure_payload_fields (args : Args) (w : Whisper)
    (c msg : String) (det : Option String) (q : Option QualityMetrics) (dur : Option ℚ)
    (h : (main args w).payload = .failure c msg det q dur) :
    ((c = "unclear_audio" ∨ c = "background_noise") →
      q.isSome = true ∧ dur = none ∧ det = none)
    ∧ (c = "too_long" → dur.isSome = true ∧ q = none ∧ det = none)
    ∧ (c = "missing_file" → q = none ∧ dur = none ∧ det = none)
    ∧ ((c = "dependency_missing" ∨ c = "transcription_failed") →
      det.isSome = true ∧ q = none ∧ dur = none)
    ∧ (det.isSome = true → c = "dependency_missing" ∨ c = "transcription_failed") := by
  by_cases h1 : args.input_exists = true
  · cases h2 : w.importResult with
    | error e =>
      rw [main_import_error args w e h1 h2] at h
      simp only [emit, Verdict.failure.injEq] at h
      obtain ⟨hc, -, hd, hq, hdu⟩ := h
      subst hc; subst hd; subst hq; subst hdu; simp
    | ok u =>
      cases u
      cases h3 : w.loadAudio with
      | error e =>
        rw [main_load_error args w e h1 h2 h3, classifyException] at h
        split at h <;>
        · simp only [emit, Verdict.failure.injEq] at h
          obtain ⟨hc, -, hd, hq, hdu⟩ := h
          subst hc; subst hd; subst hq; subst hdu; simp
      | ok sc =>
        by_cases h4 : (sc : ℚ) / SAMPLE_RATE > MAX_DURATION_SECONDS
        · rw [main_too_long args w sc h1 h2 h3 h4] at h
          simp only [emit, Verdict.failure.injEq] at h
          obtain ⟨hc, -, hd, hq, hdu⟩ := h
          subst hc; subst hd; subst hq; subst hdu; simp
        · cases h5 : w.modelRun with
          | error m =>
            rw [main_eq_classify args w sc m h1 h2 h3 h4 h5, classifyException] at h
            split at h <;>
            · simp only [emit, Verdict.failure.injEq] at h
              obtain ⟨hc, -, hd, hq, hdu⟩ := h
              subst hc; subst hd; subst hq; subst hdu; simp
          | ok r =>
            rw [main_eq_gate args w sc r h1 h2 h3 h4 h5] at h
            split at h
            · simp only [emit, Verdict.failure.injEq] at h
              obtain ⟨hc, -, hd, hq, hdu⟩ := h
              subst hc; subst hd; subst hq; subst hdu; simp
            · split at h
              · simp only [emit, Verdict.failure.injEq] at h
                obtain ⟨hc, -, hd, hq, hdu⟩ := h
                subst hc; subst hd; subst hq; subst hdu; simp
              · simp only [emit] at h
                exact Verdict.noConfusion h
  · rw [main_missing_file args w (by simpa using h1)] at h
    simp only [emit, Verdict.failure.injEq] at h
    obtain ⟨hc, -, hd, hq, hdu⟩ := h
    subst hc; subst hd; subst hq; subst hdu; simp


/-! ### Witnesses at concrete inputs -/

/-- Concrete run configuration used by the witnesses. -/
def wArgs : Args := { input_exists := true, model := "base", meeting_id := "m1" }

/-- Builds a segment whose three fields are all numeric. -/
def mkSeg (n l c : ℚ) : Segment :=
  { no_speech_prob := .num n, avg_logprob := .num l, compression_ratio := .num c }

/-- A collaborator environment whose model run succeeds with `r` on one
second of audio. -/
def wEnvOk (r : ModelResult) : Whisper :=
  { importResult := .ok (), loadAudio := .ok 16000, modelRun := .ok r,
    processing_seconds := 1 }

/-- Witness for C1: a 7-character transcript (with a 0.77 no-speech
segment) is rejected as `unclear_audio`, and an 8-character transcript
with `avg_no_speech_prob = 0.77` is not. -/
theorem C1_witness :
    ((main wArgs (wEnvOk { text := "abcdefg", segments := [mkSeg 0.77 (-0.2) 1.5] })).payload.errorCode
      = some "unclear_audio")
    ∧ ((main wArgs (wEnvOk { text := "abcdefgh", segments := [mkSeg 0.77 (-0.2) 1.5] })).payload.errorCode
      ≠ some "unclear_audio") := by
  have hdur : ¬(((16000 : ℕ) : ℚ) / SAMPLE_RATE > MAX_DURATION_SECONDS) := by
    norm_num [SAMPLE_RATE, MAX_DURATION_SECONDS]
  have hbq : build_quality_metrics [mkSeg 0.77 (-0.2) 1.5] =
      { avg_no_speech_prob := 0.77, avg_logprob := -0.2, avg_compression_ratio := 1.5 } := by
    norm_num [build_quality_metrics, mkSeg, safe_float]
  constructor
  · exact ((C1_unclear_audio_rule wArgs
      (wEnvOk { text := "abcdefg", segments := [mkSeg 0.77 (-0.2) 1.5] }) 16000
      { text := "abcdefg", segments := [mkSeg 0.77 (-0.2) 1.5] }
      rfl rfl rfl hdur rfl).1).mpr (Or.inl (by decide))
  · intro hcode
    have hd := ((C1_unclear_audio_rule wArgs
      (wEnvOk { text := "abcdefgh", segments := [mkSeg 0.77 (-0.2) 1.5] }) 16000
      { text := "abcdefgh", segments := [mkSeg 0.77 (-0.2) 1.5] }
      rfl rfl rfl hdur rfl).1).mp hcode
    rw [hbq] at hd
    rcases hd with hlen | havg
    · exact absurd hlen (by decide)
    · norm_num at havg

/-- Witness for C2 at Scenario D: transcript of length 20 with a single
segment (0.5, -1.0, 3.0) triggers `background_noise`. -/
theorem C2_witness :
    (main wArgs (wEnvOk { text := "aaaaaaaaaaaaaaaaaaaa", segments := [mkSeg 0.5 (-1) 3] })).payload.errorCode
      = some "background_noise" := by
  have hdur : ¬(((16000 : ℕ) : ℚ) / SAMPLE_RATE > MAX_DURATION_SECONDS) := by
    norm_num [SAMPLE_RATE, MAX_DURATION_SECONDS]
  have hbq : build_quality_metrics [mkSeg 0.5 (-1) 3] =
      { avg_no_speech_prob := 0.5, avg_logprob := -1, avg_compression_ratio := 3 } := by
    norm_num [build_quality_metrics, mkSeg, safe_float]
  have h6 : ¬((pyStrip "aaaaaaaaaaaaaaaaaaaa").length < 8 ∨
      (build_quality_metrics [mkSeg 0.5 (-1) 3]).avg_no_speech_prob ≥ 0.78) := by
    rw [hbq]
    rintro (hlen | havg)
    · exact absurd hlen (by decide)
    · norm_num at havg
  exact ((C2_background_noise_rule wArgs
    (wEnvOk { text := "aaaaaaaaaaaaaaaaaaaa", segments := [mkSeg 0.5 (-1) 3] }) 16000
    { text := "aaaaaaaaaaaaaaaaaaaa", segments := [mkSeg 0.5 (-1) 3] }
    rfl rfl rfl hdur rfl h6).1).mpr (by rw [hbq]; norm_num)

/-- A two-segment list with a missing and an invalid field, used by the
C3 witness. -/
def wSegs : List Segment :=
  [mkSeg 0.5 (-1) 3,
   { no_speech_prob := .missing, avg_logprob := .invalid, compression_ratio := .num 2 }]

/-- Witness for C3: the aggregation at a concrete two-segment list (one
segment with missing and invalid fields) and at the empty list. -/
theorem C3_witness :
    (build_quality_metrics wSegs =
      { avg_no_speech_prob :=
          (wSegs.map (fun s => safe_float s.no_speech_prob 0)).sum / (wSegs.length : ℚ)
        avg_logprob :=
          (wSegs.map (fun s => safe_float s.avg_logprob (-1))).sum / (wSegs.length : ℚ)
        avg_compression_ratio :=
          (wSegs.map (fun s => safe_float s.compression_ratio 1)).sum / (wSegs.length : ℚ) })
    ∧ (build_quality_metrics [] =
      { avg_no_speech_prob := 1, avg_logprob := -10, avg_compression_ratio := 10 }) :=
  ⟨(C3_metric_aggregation wSegs).1 (by decide), (C3_metric_aggregation []).2 rfl⟩

/-- Witness for C4 at Scenario C: zero segments with a long transcript
still yield the `unclear_audio` failure with the sentinel quality. -/
theorem C4_witness :
    main wArgs (wEnvOk { text := "plenty of text here", segments := [] }) =
      emit (.failure "unclear_audio" "Couldn\x27t hear clearly" none
        (some { avg_no_speech_prob := 1, avg_logprob := -10,
                avg_compression_ratio := 10 }) none) 0 true := by
  have hdur : ¬(((16000 : ℕ) : ℚ) / SAMPLE_RATE > MAX_DURATION_SECONDS) := by
    norm_num [SAMPLE_RATE, MAX_DURATION_SECONDS]
  exact C4_zero_segments_unclear wArgs
    (wEnvOk { text := "plenty of text here", segments := [] }) 16000
    { text := "plenty of text here", segments := [] } rfl rfl rfl hdur rfl rfl

/-- Collaborator environment with 4000 seconds of audio. -/
def wEnvLong : Whisper :=
  { importResult := .ok (), loadAudio := .ok (4000 * 16000),
    modelRun := .ok { text := "plenty of text here", segments := [] },
    processing_seconds := 1 }

/-- Collaborator environment with exactly 3600 seconds of audio. -/
def wEnvHour : Whisper :=
  { importResult := .ok (), loadAudio := .ok (3600 * 16000),
    modelRun := .ok { text := "plenty of text here", segments := [] },
    processing_seconds := 1 }

/-- Witness for C5 at Scenario B: 4000 seconds is rejected as
`too_long` carrying the duration with the model not invoked, while
exactly 3600 seconds is not rejected as `too_long`. -/
theorem C5_witness :
    (main wArgs wEnvLong = emit (.failure "too_long" "Please split into 1 hour parts"
      none none (some (((4000 * 16000 : ℕ) : ℚ) / SAMPLE_RATE))) 0 false)
    ∧ (main wArgs wEnvHour).payload.errorCode ≠ some "too_long" :=
  ⟨(C5_duration_guard wArgs wEnvLong (4000 * 16000) rfl rfl rfl).1
      (by norm_num [SAMPLE_RATE]),
   (C5_duration_guard wArgs wEnvHour (3600 * 16000) rfl rfl rfl).2
      (by norm_num [SAMPLE_RATE])⟩

/-- Witness for C7: a model failure mentioning FFmpeg is classified as
`dependency_missing`, with the original text in `details`. -/
theorem C7_witness :
    ((main wArgs
        { importResult := .ok (), loadAudio := .ok 16000,
          modelRun := .error "FFmpeg not found", processing_seconds := 1 }).payload.errorCode
      = some "dependency_missing")
    ∧ (main wArgs
        { importResult := .ok (), loadAudio := .ok 16000,
          modelRun := .error "FFmpeg not found", processing_seconds := 1 }).payload.detailsOf
      = some "FFmpeg not found" := by
  have hdur : ¬(((16000 : ℕ) : ℚ) / SAMPLE_RATE > MAX_DURATION_SECONDS) := by
    norm_num [SAMPLE_RATE, MAX_DURATION_SECONDS]
  have h := C7_exception_classification wArgs
    { importResult := .ok (), loadAudio := .ok 16000,
      modelRun := .error "FFmpeg not found", processing_seconds := 1 }
    16000 "FFmpeg not found" rfl rfl rfl hdur rfl
  exact ⟨h.1.mpr (by decide), h.2.2.2⟩

/-- Witness for the amended C8 at the missing-file failure. -/
theorem C8_witness :
    "Audio file not found." ∈ fixedMessages "missing_file" :=
  C8_message_fixed_per_code
    { input_exists := false, model := "base", meeting_id := "m1" }
    { importResult := .ok (), loadAudio := .ok 0, modelRun := .error "x",
      processing_seconds := 0 }
    "missing_file" "Audio file not found." none none none rfl

/-- A two-segment list with integer-valued fields for the C9 witness. -/
def wSegs9 : List Segment := [mkSeg 0 (-1) 1, mkSeg 1 (-3) 3]

/-- Witness for C9: at a concrete two-segment list each aggregated
metric lies between the per-field minimum and maximum. -/
theorem C9_witness :
    ((0 : ℚ) ≤ (build_quality_metrics wSegs9).avg_no_speech_prob ∧
      (build_quality_metrics wSegs9).avg_no_speech_prob ≤ 1)
    ∧ ((-3 : ℚ) ≤ (build_quality_metrics wSegs9).avg_logprob ∧
      (build_quality_metrics wSegs9).avg_logprob ≤ -1)
    ∧ ((1 : ℚ) ≤ (build_quality_metrics wSegs9).avg_compression_ratio ∧
      (build_quality_metrics wSegs9).avg_compression_ratio ≤ 3) := by
  have h := (C9_metrics_convex_hull wSegs9).2 (by decide)
  exact ⟨h.1 0 1 (by decide) (by decide),
    h.2.1 (-3) (-1) (by decide) (by decide),
    h.2.2 1 3 (by decide) (by decide)⟩

/-- Witness for C10 at the missing-file failure payload. -/
theorem C10_witness :
    (("missing_file" = "unclear_audio" ∨ "missing_file" = "background_noise") →
      (none : Option QualityMetrics).isSome = true ∧ (none : Option ℚ) = none ∧
        (none : Option String) = none)
    ∧ ("missing_file" = "too_long" → (none : Option ℚ).isSome = true ∧
        (none : Option QualityMetrics) = none ∧ (none : Option String) = none)
    ∧ ("missing_file" = "missing_file" → (none : Option QualityMetrics) = none ∧
        (none : Option ℚ) = none ∧ (none : Option String) = none)
    ∧ (("missing_file" = "dependency_missing" ∨ "missing_file" = "transcription_failed") →
      (none : Option String).isSome = true ∧ (none : Option QualityMetrics) = none ∧
        (none : Option ℚ) = none)
    ∧ ((none : Option String).isSome = true →
      "missing_file" = "dependency_missing" ∨ "missing_file" = "transcription_failed") :=
  C10_failure_payload_fields
    { input_exists := false, model := "base", meeting_id := "m1" }
    { importResult := .ok (), loadAudio := .ok 0, modelRun := .error "x",
      processing_seconds := 0 }
    "missing_file" "Audio file not found." none none none rfl


end Transcribe
